import Mathlib

/-!
# Verification of the jobsphere job-application lifecycle

Shallow embedding of the application-creation, withdrawal, update and
reporting logic of the jobsphere backend
(`src/backend/apps/jobs/models.py`, `src/backend/apps/jobs/serializers.py`,
`src/backend/apps/jobs/views.py`, `src/backend/apps/activity/views.py`),
together with theorems settling the frozen claims about it.

Modelling conventions: user identities and row identifiers are `Nat`;
timestamps are `Int` (the current timestamp `now` is passed explicitly
where the source calls `timezone.now()`); database tables are lists of
rows; nullable columns are `Option`; the `status` columns are `String`,
exactly as the source compares them; fallible request handlers return an
explicit result type, with a dedicated constructor for the unhandled
`None <= datetime` comparison that raises `TypeError` in the source.
-/

namespace Jobsphere

/-- `Job.STATUS_CHOICES` from `apps/jobs/models.py` lines 28-35. -/
def STATUS_CHOICES : List String :=
  ["draft", "active", "paused", "filled", "expired", "cancelled"]

/-- `JobApplication.APPLICATION_STATUS` from `apps/jobs/models.py` lines 155-165. -/
def APPLICATION_STATUS : List String :=
  ["pending", "reviewed", "shortlisted", "interview_scheduled",
   "interview_completed", "offer_made", "accepted", "rejected", "withdrawn"]

/-- The columns of the `Job` model (`apps/jobs/models.py`) that the
application-lifecycle logic reads: primary key, poster, status string and
the nullable `application_deadline`. -/
structure Job where
  id : Nat
  posted_by : Nat
  status : String
  application_deadline : Option Int
  deriving Repr, DecidableEq

/-- The columns of the `JobApplication` model (`apps/jobs/models.py`
lines 153-222) that the lifecycle logic reads or writes.  `applied_at`
is `auto_now_add`, `updated_at` is `auto_now`. -/
structure JobApplication where
  id : Nat
  job : Nat
  applicant : Nat
  cover_letter : String
  portfolio_url : String
  status : String
  notes : String
  applied_at : Int
  updated_at : Int
  deriving Repr, DecidableEq

/-- The persistent state the claims range over: the jobs table and the
job-applications table. -/
structure DB where
  jobs : List Job
  apps : List JobApplication
  deriving Repr, DecidableEq

/-! ## Serializer layer (`apps/jobs/serializers.py`) -/

/-- The Python `str.strip()` used by the serializers: remove whitespace
from both ends of the string. -/
def pyStrip (s : String) : String :=
  String.mk (((s.data.dropWhile Char.isWhitespace).reverse.dropWhile Char.isWhitespace).reverse)

/-- `JobApplicationSerializer.validate_cover_letter`
(`apps/jobs/serializers.py` lines 203-207): a non-empty cover letter must
be at least 50 characters after trimming; the trimmed value is stored. -/
def validate_cover_letter (value : String) : Except String String :=
  if value ≠ "" ∧ (pyStrip value).length < 50 then
    Except.error "Cover letter should be at least 50 characters long."
  else
    Except.ok (if value ≠ "" then pyStrip value else value)

/-- `JobApplicationSerializer.validate_job_id`
(`apps/jobs/serializers.py` lines 209-219): the job must exist, its
status must be the string `active`, and its deadline, when non-null, must
be strictly in the future. -/
def validate_job_id (db : DB) (now : Int) (value : Nat) : Except String Nat :=
  match db.jobs.find? (fun j => j.id = value) with
  | none => Except.error "Job does not exist."
  | some job =>
      if job.status ≠ "active" then
        Except.error "Cannot apply to inactive jobs."
      else
        match job.application_deadline with
        | some d => if d ≤ now then Except.error "Application deadline has passed." else Except.ok value
        | none => Except.ok value

/-- The body of an application-creation request.  `job` is the raw
`request.data` key the view reads (`views.py` line 262); `job_id` is the
write-only serializer field; `cover_letter` and `portfolio_url` are the
optional writable content fields. -/
structure CreateRequest where
  job : Option Nat
  job_id : Option Nat
  cover_letter : Option String
  portfolio_url : Option String
  deriving Repr, DecidableEq

/-- The field errors `JobApplicationSerializer.is_valid` collects on an
application-creation request: the required `job_id` field is validated by
`validate_job_id`, the optional `cover_letter` by
`validate_cover_letter`; the framework gathers the errors of all fields
rather than stopping at the first. -/
def serializerErrors (db : DB) (now : Int) (req : CreateRequest) : List String :=
  (match req.job_id with
   | none => ["job_id: This field is required."]
   | some v =>
       match validate_job_id db now v with
       | Except.error e => ["job_id: " ++ e]
       | Except.ok _ => []) ++
  (match req.cover_letter with
   | none => []
   | some v =>
       match validate_cover_letter v with
       | Except.error e => ["cover_letter: " ++ e]
       | Except.ok _ => [])

/-- The cover-letter value the serializer stores on save: the trimmed
request value when one was supplied, the model default (blank) otherwise. -/
def validatedCoverLetter (req : CreateRequest) : String :=
  match req.cover_letter with
  | none => ""
  | some v => if v ≠ "" then pyStrip v else v

/-- The portfolio value stored on save: the request value when supplied,
the model default (blank) otherwise. -/
def validatedPortfolio (req : CreateRequest) : String :=
  match req.portfolio_url with
  | none => ""
  | some v => v

/-! ## Application creation (`JobApplicationListCreateView.create`,
`apps/jobs/views.py` lines 257-292) -/

/-- Outcome of `JobApplicationListCreateView.create`.
`validationError` is the HTTP 400 raised by `serializer.is_valid`;
`notFound` the HTTP 404 of `get_object_or_404`; `badRequest` the explicit
HTTP 400 responses of the view; `typeError` the unhandled Python
`TypeError` raised by `job.application_deadline <= timezone.now()` when
the deadline is null; `created` the HTTP 201 success carrying the new
row. -/
inductive CreateResult where
  | validationError (errors : List String)
  | notFound
  | badRequest (error : String)
  | typeError
  | created (app : JobApplication)
  deriving Repr, DecidableEq

/-- `JobApplicationListCreateView.create` (`apps/jobs/views.py` lines
257-292), composed with the serializer save path
(`JobApplicationSerializer.create`, `serializers.py` lines 221-232).
Steps, in source order: serializer validation; `get_object_or_404` on the
`job` request key; own-job check; `status != 'published'` check; deadline
comparison (which raises `TypeError` on a null deadline); duplicate
check; then the serializer re-checks the duplicate and inserts a row with
the model defaults `status = 'pending'`, `applied_at = now`.  Returns the
outcome and the resulting database. -/
def createApplication (db : DB) (now : Int) (user : Nat) (nextId : Nat)
    (req : CreateRequest) : CreateResult × DB :=
  let errs := serializerErrors db now req
  if errs ≠ [] then (CreateResult.validationError errs, db)
  else
    match db.jobs.find? (fun j => some j.id = req.job) with
    | none => (CreateResult.notFound, db)
    | some job =>
        if job.posted_by = user then
          (CreateResult.badRequest "You cannot apply to your own job", db)
        else if job.status ≠ "published" then
          (CreateResult.badRequest "This job is not accepting applications", db)
        else
          match job.application_deadline with
          | none => (CreateResult.typeError, db)
          | some d =>
              if d ≤ now then
                (CreateResult.badRequest "Application deadline has passed", db)
              else if db.apps.any (fun a => a.job = job.id ∧ a.applicant = user) then
                (CreateResult.badRequest "You have already applied to this job", db)
              else if db.apps.any (fun a => some a.job = req.job_id ∧ a.applicant = user) then
                (CreateResult.validationError ["You have already applied to this job."], db)
              else
                let app : JobApplication :=
                  { id := nextId, job := job.id, applicant := user,
                    cover_letter := validatedCoverLetter req,
                    portfolio_url := validatedPortfolio req,
                    status := "pending", notes := "",
                    applied_at := now, updated_at := now }
                (CreateResult.created app, { db with apps := db.apps ++ [app] })

/-! ## Withdrawal (`withdraw_application`, `apps/jobs/views.py` lines
438-458) -/

/-- Outcome of `withdraw_application`: the `get_object_or_404` lookup is
scoped to `applicant=request.user`, so a missing or foreign application
is HTTP 404; a terminal status is an explicit HTTP 400; success returns
HTTP 200. -/
inductive WithdrawResult where
  | notFound
  | badRequest (error : String)
  | success (message : String)
  deriving Repr, DecidableEq

/-- `withdraw_application` (`apps/jobs/views.py` lines 438-458): look the
application up by id and requesting user; refuse when the status is
`accepted` or `rejected`; otherwise set `status = 'withdrawn'` with
`save(update_fields=['status'])`, which touches no other column. -/
def withdrawApplication (db : DB) (user : Nat) (applicationId : Nat) :
    WithdrawResult × DB :=
  match db.apps.find? (fun a => a.id = applicationId ∧ a.applicant = user) with
  | none => (WithdrawResult.notFound, db)
  | some a =>
      if a.status = "accepted" ∨ a.status = "rejected" then
        (WithdrawResult.badRequest "Cannot withdraw application with current status", db)
      else
        (WithdrawResult.success "Application withdrawn successfully",
         { db with apps := db.apps.map (fun b =>
             if b.id = a.id then { b with status := "withdrawn" } else b) })

/-! ## Application update (`JobApplicationDetailView.update`,
`apps/jobs/views.py` lines 306-322) -/

/-- Outcome of `JobApplicationDetailView.update`. -/
inductive UpdateResult where
  | notFound
  | validationError (errors : List String)
  | updated (app : JobApplication)
  deriving Repr, DecidableEq

/-- The field filter of `JobApplicationDetailView.update`
(`apps/jobs/views.py` lines 311-313): only `cover_letter` and
`portfolio_url` survive from the request data. -/
def allowedFields (data : List (String × String)) : List (String × String) :=
  data.filter (fun kv => kv.1 = "cover_letter" ∨ kv.1 = "portfolio_url")

/-- The value the filtered request data supplies for a key, if any. -/
def fieldValue (data : List (String × String)) (key : String) : Option String :=
  ((allowedFields data).find? (fun kv => kv.1 = key)).map (fun kv => kv.2)

/-- The cover-letter part of serializer validation on update: absent
field is fine, a present field goes through `validate_cover_letter`. -/
def coverCheck (data : List (String × String)) : Except String (Option String) :=
  match fieldValue data "cover_letter" with
  | none => Except.ok none
  | some v =>
      match validate_cover_letter v with
      | Except.error e => Except.error e
      | Except.ok v2 => Except.ok (some v2)

/-- The required-field errors of serializer validation on update: on a
full (non-patch) update the required `job_id` field is missing from the
filtered data, so validation necessarily fails; a patch request skips
required fields. -/
def requiredErrors (patch : Bool) : List String :=
  if patch then [] else ["job_id: This field is required."]

/-- `JobApplicationDetailView.update` (`apps/jobs/views.py` lines
306-322): the queryset is scoped to `applicant=request.user`; the request
data is filtered to the keys `cover_letter` and `portfolio_url`; the
serializer validates the surviving fields; on success only the supplied
fields are written and the `auto_now` column `updated_at` is set to now
by the full `save()`. -/
def updateApplication (db : DB) (now : Int) (user : Nat) (applicationId : Nat)
    (data : List (String × String)) (patch : Bool) : UpdateResult × DB :=
  match db.apps.find? (fun a => a.id = applicationId ∧ a.applicant = user) with
  | none => (UpdateResult.notFound, db)
  | some a =>
      match coverCheck data with
      | Except.error e =>
          (UpdateResult.validationError (requiredErrors patch ++ ["cover_letter: " ++ e]), db)
      | Except.ok coverOk =>
          if requiredErrors patch ≠ [] then
            (UpdateResult.validationError (requiredErrors patch), db)
          else
            let a2 : JobApplication :=
              { a with
                cover_letter := coverOk.getD a.cover_letter,
                portfolio_url := (fieldValue data "portfolio_url").getD a.portfolio_url,
                updated_at := now }
            (UpdateResult.updated a2,
             { db with apps := db.apps.map (fun b => if b.id = a.id then a2 else b) })

/-! ## Reported application count (`apps/jobs/views.py` lines 63-71 and
385-405) -/

/-- The field and accessor names of the `Job` model
(`apps/jobs/models.py` lines 8-130): every concrete column name, the
attribute names of the foreign keys, and the reverse-relation accessor
names contributed by the related names `applications`
(`JobApplication.job`), `job_views` (`JobView.job`) and `saved_by_users`
(`SavedJob.job`).  This is the name set the framework checks annotation
aliases against. -/
def jobFieldNames : List String :=
  ["id", "title", "company", "description", "requirements", "benefits",
   "job_type", "experience_level", "category", "skills_required",
   "salary_min", "salary_max", "salary_currency", "salary_type",
   "location", "location_id", "is_remote", "remote_type",
   "posted_by", "posted_by_id", "status",
   "application_deadline", "max_applications", "application_email", "application_url",
   "slug", "meta_description", "search_vector",
   "view_count", "application_count",
   "created_at", "updated_at", "published_at",
   "applications", "job_views", "saved_by_users"]

/-- The reverse relations that exist on `Job` and can be counted:
the related names declared on the foreign keys pointing at it. -/
def jobReverseRelations : List String := ["applications", "job_views", "saved_by_users"]

/-- The framework check `QuerySet.annotate` runs on a `Job` queryset
before any query executes: the first annotation alias that coincides with
a name on the model makes it raise
`ValueError: The annotation '...' conflicts with a field on the model`;
the offending alias is returned. -/
def annotateConflict (aliases : List String) : Option String :=
  aliases.find? (fun a => jobFieldNames.contains a)

/-- The annotation aliases both reporting sites pass:
`JobListCreateView.get_queryset` (`views.py` lines 68-71) and `my_jobs`
(`views.py` lines 390-394) each call
`annotate(application_count=Count('applications'), view_count=Count('views'))`. -/
def jobsAnnotationAliases : List String := ["application_count", "view_count"]

/-! ## Dashboard summary (`dashboard_summary`, `apps/activity/views.py`
lines 215-260) -/

/-- The cached statistics columns of the `Dashboard` model
(`apps/activity/models.py`) that `dashboard_summary` reads. -/
structure Dashboard where
  total_applications : Nat
  active_applications : Nat
  pending_applications : Nat
  reviewed_applications : Nat
  interview_applications : Nat
  accepted_applications : Nat
  rejected_applications : Nat
  deriving Repr, DecidableEq

/-- Round-half-to-even on rationals, the rounding mode of the Python
built-in `round`. -/
def roundHalfEven (q : ℚ) : ℤ :=
  let f : ℤ := ⌊q⌋
  let r : ℚ := q - f
  if r < 1 / 2 then f
  else if 1 / 2 < r then f + 1
  else if Even f then f else f + 1

/-- Python `round(x, 1)`: round to one decimal place. -/
def pyRound1 (q : ℚ) : ℚ := (roundHalfEven (10 * q) : ℚ) / 10

/-- The `job_seeker_stats` block of the `dashboard_summary` response. -/
structure JobSeekerStats where
  total_applications : Nat
  active_applications : Nat
  success_rate : ℚ
  response_rate : ℚ
  pending_applications : Nat
  interviews_scheduled : Nat
  deriving Repr, DecidableEq

/-- `dashboard_summary` (`apps/activity/views.py` lines 215-260),
job-seeker side: `success_rate` is 0 unless `total_applications > 0`, in
which case it is `accepted / total * 100`; `response_rate` likewise over
reviewed + interview + accepted + rejected; both are rounded to one
decimal place when the summary dict is built. -/
def dashboard_summary (d : Dashboard) : JobSeekerStats :=
  let total_apps := d.total_applications
  let success_rate : ℚ :=
    if total_apps > 0 then ((d.accepted_applications : ℚ) / (total_apps : ℚ)) * 100 else 0
  let responded :=
    d.reviewed_applications + d.interview_applications +
      d.accepted_applications + d.rejected_applications
  let response_rate : ℚ :=
    if total_apps > 0 then ((responded : ℚ) / (total_apps : ℚ)) * 100 else 0
  { total_applications := total_apps,
    active_applications := d.active_applications,
    success_rate := pyRound1 success_rate,
    response_rate := pyRound1 response_rate,
    pending_applications := d.pending_applications,
    interviews_scheduled := d.interview_applications }

/-- The success-rate formula as the specification states it:
`accepted / total * 100` rounded to one decimal place, and 0 (not an
error) when the total is 0. -/
def specSuccessRate (accepted total : Nat) : ℚ :=
  if total = 0 then 0 else pyRound1 (((accepted : ℚ) / (total : ℚ)) * 100)

/-! ## Claim-side definitions -/

/-- The application-creation pipeline in the order claim C2 states it:
(1) job exists, (2) job status is active/published, (3) applicant is not
the poster, (4) deadline null or in the future, (5) no existing
application for the pair, (6) cover letter, if present, at least 50
trimmed characters; the first failing check determines the error.  This
definition follows the words of the claim, to be compared against
`createApplication`, which follows the source. -/
def claimedCreateOrder (db : DB) (now : Int) (user : Nat) (nextId : Nat)
    (req : CreateRequest) : CreateResult × DB :=
  match db.jobs.find? (fun j => some j.id = req.job) with
  | none => (CreateResult.notFound, db)
  | some job =>
      if ¬ (job.status = "active" ∨ job.status = "published") then
        (CreateResult.badRequest "This job is not accepting applications", db)
      else if job.posted_by = user then
        (CreateResult.badRequest "You cannot apply to your own job", db)
      else if (job.application_deadline.any fun d => d ≤ now) then
        (CreateResult.badRequest "Application deadline has passed", db)
      else if db.apps.any (fun a => a.job = job.id ∧ a.applicant = user) then
        (CreateResult.badRequest "You have already applied to this job", db)
      else if (req.cover_letter.any fun v => v ≠ "" ∧ (pyStrip v).length < 50) then
        (CreateResult.validationError
          ["cover_letter: Cover letter should be at least 50 characters long."], db)
      else
        let app : JobApplication :=
          { id := nextId, job := job.id, applicant := user,
            cover_letter := validatedCoverLetter req,
            portfolio_url := validatedPortfolio req,
            status := "pending", notes := "",
            applied_at := now, updated_at := now }
        (CreateResult.created app, { db with apps := db.apps ++ [app] })

/-- The fields of a `JobApplication` row that the applicant-facing update
endpoint must never change: everything except `cover_letter`,
`portfolio_url` and the auto-maintained `updated_at` timestamp. -/
def updateFrame (b b2 : JobApplication) : Prop :=
  b2.id = b.id ∧ b2.job = b.job ∧ b2.applicant = b.applicant ∧
    b2.status = b.status ∧ b2.notes = b.notes ∧ b2.applied_at = b.applied_at

/-! ## Concrete fixtures used by the closed theorems -/

/-- A 60-character cover letter with no surrounding whitespace. -/
def cover60 : String := "aaaaaaaaaaaaaaaaaaaaaaaaaaaaaaaaaaaaaaaaaaaaaaaaaaaaaaaaaaaa"

/-- A job in the only applicable status of `Job.STATUS_CHOICES`
(`active`), posted by user 1, with a deadline in the future of the
reference instant 0. -/
def exJobActive : Job :=
  { id := 1, posted_by := 1, status := "active", application_deadline := some 100 }

/-- Database holding only `exJobActive` and no applications. -/
def exDbActive : DB := { jobs := [exJobActive], apps := [] }

/-- A well-formed creation request against job 1: both the `job` request
key and the `job_id` serializer field name it, with a 60-character cover
letter. -/
def exReqOk : CreateRequest :=
  { job := some 1, job_id := some 1, cover_letter := some cover60, portfolio_url := none }

/-- The same request with a 9-character cover letter. -/
def exReqShortCover : CreateRequest :=
  { job := some 1, job_id := some 1, cover_letter := some "too short", portfolio_url := none }

/-- A job carrying the status string `published` (which the list endpoint
and the creation view treat as the applicable status) with a null
deadline. -/
def exJobPublishedNull : Job :=
  { id := 1, posted_by := 1, status := "published", application_deadline := none }

/-- A second job in status `active` with a future deadline. -/
def exJobActive2 : Job :=
  { id := 2, posted_by := 1, status := "active", application_deadline := some 100 }

/-- Database holding `exJobPublishedNull` and `exJobActive2`. -/
def exDbPublishedNull : DB :=
  { jobs := [exJobPublishedNull, exJobActive2], apps := [] }

/-- A creation request whose `job` key names job 1 and whose `job_id`
serializer field names job 2. -/
def exReqMismatch : CreateRequest :=
  { job := some 1, job_id := some 2, cover_letter := some cover60, portfolio_url := none }

/-- A draft job posted by user 1. -/
def exJobDraft : Job :=
  { id := 1, posted_by := 1, status := "draft", application_deadline := none }

/-- Database holding only `exJobDraft`. -/
def exDbDraft : DB := { jobs := [exJobDraft], apps := [] }

/-- An existing pending application of user 2 to job 1. -/
def exAppExisting : JobApplication :=
  { id := 5, job := 1, applicant := 2, cover_letter := cover60, portfolio_url := "",
    status := "pending", notes := "", applied_at := -10, updated_at := -10 }

/-- Database where user 2 already applied to the active job 1. -/
def exDbSecondAttempt : DB := { jobs := [exJobActive], apps := [exAppExisting] }

/-- An application of user 2 that is already withdrawn. -/
def exAppWithdrawn : JobApplication :=
  { id := 1, job := 1, applicant := 2, cover_letter := "", portfolio_url := "",
    status := "withdrawn", notes := "", applied_at := 0, updated_at := 0 }

/-- Database holding only `exAppWithdrawn`. -/
def exDbWithdrawn : DB := { jobs := [], apps := [exAppWithdrawn] }

/-- A pending application of user 2 to job 1. -/
def exAppPending : JobApplication :=
  { id := 1, job := 1, applicant := 2, cover_letter := "old", portfolio_url := "",
    status := "pending", notes := "", applied_at := 0, updated_at := 0 }

/-- Database holding only `exAppPending`. -/
def exDbPending : DB := { jobs := [], apps := [exAppPending] }

/-- An active job with a null deadline, for the serializer-side
null-deadline check. -/
def exJob1 : Job :=
  { id := 1, posted_by := 1, status := "active", application_deadline := none }

/-- Database holding `exJob1` and the withdrawn application. -/
def exDbWithdrawnOnly : DB := { jobs := [exJob1], apps := [exAppWithdrawn] }

/-- Dashboard with 4 total applications, 1 accepted. -/
def exDash4 : Dashboard :=
  { total_applications := 4, active_applications := 0, pending_applications := 0,
    reviewed_applications := 0, interview_applications := 0,
    accepted_applications := 1, rejected_applications := 0 }

/-- A job carrying the status string `published` with a future deadline. -/
def exJobPublishedFuture : Job :=
  { id := 1, posted_by := 1, status := "published", application_deadline := some 100 }

/-- Database holding only `exJobPublishedFuture`. -/
def exDbPublishedFuture : DB := { jobs := [exJobPublishedFuture], apps := [] }

/-- Dashboard with no applications. -/
def exDash0 : Dashboard :=
  { total_applications := 0, active_applications := 0, pending_applications := 0,
    reviewed_applications := 0, interview_applications := 0,
    accepted_applications := 0, rejected_applications := 0 }

/-! ## Theorems -/

/-- Claim C1: an eligible applicant (job in the applicable model status
with a future deadline, applicant distinct from the poster, 60-character
cover letter, no prior application) gets a new pending Application.  The
code refutes this: the serializer demands status `active` while the view
demands status `published`, a status the model does not offer, so the
request is rejected with the not-accepting-applications error and nothing
is created; with the status string `published` instead, the serializer
rejects the request as inactive. -/
theorem c1_eligible_request_rejected :
    createApplication exDbActive 0 2 7 exReqOk
      = (CreateResult.badRequest "This job is not accepting applications", exDbActive)
    ∧ createApplication exDbPublishedFuture 0 2 7 exReqOk
      = (CreateResult.validationError ["job_id: Cannot apply to inactive jobs."],
         exDbPublishedFuture) := by
  decide

/-- Claim C2 counterexample: the poster applies to their own active job
with a 9-character cover letter.  Under the order the claim states, the
own-job check (3) fails before the cover-letter check (6), giving the
own-job rejection; the code instead runs the serializer first and returns
the cover-letter ValidationError. -/
theorem c2_counterexample :
    createApplication exDbActive 0 1 7 exReqShortCover
      = (CreateResult.validationError
          ["cover_letter: Cover letter should be at least 50 characters long."], exDbActive)
    ∧ claimedCreateOrder exDbActive 0 1 7 exReqShortCover
      = (CreateResult.badRequest "You cannot apply to your own job", exDbActive)
    ∧ createApplication exDbActive 0 1 7 exReqShortCover
      ≠ claimedCreateOrder exDbActive 0 1 7 exReqShortCover := by
  decide

/-- Claim C3: the serializer-side deadline check does handle a null
deadline (first conjunct: an active job with null deadline passes
`validate_job_id`), but the view-side comparison does not: a request that
reaches it with a null deadline raises a TypeError instead of passing
(second conjunct, with the `published`-status job under the `job` key and
an `active` job under `job_id`). -/
theorem c3_null_deadline_view_crash :
    validate_job_id exDbWithdrawnOnly 0 1 = Except.ok 1
    ∧ createApplication exDbPublishedNull 0 2 7 exReqMismatch
        = (CreateResult.typeError, exDbPublishedNull) :=
  ⟨rfl, by decide⟩

/-- Claim C4 counterexample: the poster applies to their own draft job
with a valid cover letter.  The claim says the result is always the
own-job rejection; the code returns the serializer ValidationError about
the inactive job instead. -/
theorem c4_counterexample :
    createApplication exDbDraft 0 1 7 exReqOk
      = (CreateResult.validationError ["job_id: Cannot apply to inactive jobs."], exDbDraft)
    ∧ CreateResult.validationError ["job_id: Cannot apply to inactive jobs."]
      ≠ CreateResult.badRequest "You cannot apply to your own job" := by
  decide

/-- Claim C5: with an application for the pair already present, a second
attempt by the same applicant does not yield the already-applied
Conflict: the status check fires first and the view returns the
not-accepting-applications error (the duplicate checks are unreachable
because no job satisfies both the serializer status requirement `active`
and the view status requirement `published`). -/
theorem c5_second_attempt_not_conflict :
    exDbSecondAttempt.apps.any (fun a => a.job = 1 ∧ a.applicant = 2) = true
    ∧ createApplication exDbSecondAttempt 0 2 7 exReqOk
        = (CreateResult.badRequest "This job is not accepting applications", exDbSecondAttempt) := by
  decide

/-- Claim C6 counterexample: withdrawal of an already-withdrawn
application succeeds, although `withdrawn` is not among the six statuses
the claim says withdrawal succeeds from exactly. -/
theorem c6_counterexample :
    (withdrawApplication exDbWithdrawn 2 1).1
      = WithdrawResult.success "Application withdrawn successfully"
    ∧ "withdrawn" ∈ APPLICATION_STATUS
    ∧ "withdrawn" ∉ ["pending", "reviewed", "shortlisted", "interview_scheduled",
        "interview_completed", "offer_made"] := by
  decide

/-- Claim C7 counterexample: user 1 tries to withdraw the application of
user 2.  The claim says this fails with Forbidden as distinct from
NotFound; the code scopes the lookup to the requesting user, so the
outcome is NotFound and the database is unchanged. -/
theorem c7_counterexample :
    withdrawApplication exDbPending 1 1 = (WithdrawResult.notFound, exDbPending)
    ∧ (1 : Nat) ≠ exAppPending.applicant := by
  decide

/-- Claim C9: both sites that would report `application_count` never
report anything: their annotation alias `application_count` collides
with the concrete `Job.application_count` column (first conjunct), so
the annotate call raises a ValueError before any query runs; and even
absent that, the companion `Count('views')` names no relation on `Job`
(second and third conjuncts: the relation is called `job_views`, while
`applications` does exist).  The stored column is never written, so no
reported count can equal the non-withdrawn application count. -/
theorem c9_annotation_raises :
    annotateConflict jobsAnnotationAliases = some "application_count"
    ∧ "views" ∉ jobReverseRelations
    ∧ "applications" ∈ jobReverseRelations := by
  decide

/-- Claim C10 counterexample: a successful patch of the cover letter at
time 5 also changes the `updated_at` column (an `auto_now` timestamp),
although `updated_at` is neither `cover_letter` nor `portfolio_url`; the
`status` field supplied by the request is ignored, as the claim says. -/
theorem c10_counterexample :
    (updateApplication exDbPending 5 2 1
        [("cover_letter", cover60), ("status", "accepted")] true).1
      = UpdateResult.updated { exAppPending with cover_letter := cover60, updated_at := 5 }
    ∧ (5 : Int) ≠ exAppPending.updated_at := by
  decide

/-- Claim C2, amended: the serializer validation (job existence, active
status and deadline under `job_id`; trimmed cover-letter length), with
its errors aggregated, runs before any view check; the view then checks,
first failure winning: the `job` request key resolves (else NotFound),
the applicant is not the poster, the job status is `published`, the
deadline (with no null guard) is in the future, and no application for
the pair exists; when everything passes a pending application is
inserted. -/
theorem c2_amended_order (db : DB) (now : Int) (user nextId : Nat) (req : CreateRequest) :
    (serializerErrors db now req ≠ [] →
      createApplication db now user nextId req
        = (CreateResult.validationError (serializerErrors db now req), db))
    ∧ (serializerErrors db now req = [] →
        db.jobs.find? (fun j => some j.id = req.job) = none →
        createApplication db now user nextId req = (CreateResult.notFound, db))
    ∧ (∀ job, serializerErrors db now req = [] →
        db.jobs.find? (fun j => some j.id = req.job) = some job →
        job.posted_by = user →
        createApplication db now user nextId req
          = (CreateResult.badRequest "You cannot apply to your own job", db))
    ∧ (∀ job, serializerErrors db now req = [] →
        db.jobs.find? (fun j => some j.id = req.job) = some job →
        job.posted_by ≠ user → job.status ≠ "published" →
        createApplication db now user nextId req
          = (CreateResult.badRequest "This job is not accepting applications", db))
    ∧ (∀ job, serializerErrors db now req = [] →
        db.jobs.find? (fun j => some j.id = req.job) = some job →
        job.posted_by ≠ user → job.status = "published" →
        job.application_deadline = none →
        createApplication db now user nextId req = (CreateResult.typeError, db))
    ∧ (∀ job d, serializerErrors db now req = [] →
        db.jobs.find? (fun j => some j.id = req.job) = some job →
        job.posted_by ≠ user → job.status = "published" →
        job.application_deadline = some d → d ≤ now →
        createApplication db now user nextId req
          = (CreateResult.badRequest "Application deadline has passed", db))
    ∧ (∀ job d, serializerErrors db now req = [] →
        db.jobs.find? (fun j => some j.id = req.job) = some job →
        job.posted_by ≠ user → job.status = "published" →
        job.application_deadline = some d → now < d →
        db.apps.any (fun a => a.job = job.id ∧ a.applicant = user) = true →
        createApplication db now user nextId req
          = (CreateResult.badRequest "You have already applied to this job", db)) := by
  refine ⟨?_, ?_, ?_, ?_, ?_, ?_, ?_⟩
  · intro h
    simp [createApplication, h]
  · intro hs hfind
    simp [createApplication, hs, hfind]
  · intro job hs hfind hown
    simp [createApplication, hs, hfind, hown]
  · intro job hs hfind hown hstat
    simp [createApplication, hs, hfind, hown, hstat]
  · intro job hs hfind hown hstat hdl
    simp [createApplication, hs, hfind, hown, hstat, hdl]
  · intro job d hs hfind hown hstat hdl hpast
    simp [createApplication, hs, hfind, hown, hstat, hdl, hpast]
  · intro job d hs hfind hown hstat hdl hfut hdup
    simp only [createApplication, hs, hfind, hown, hstat, hdl]
    rcases List.any_eq_true.mp hdup with ⟨x, hx, hpx⟩
    simp only [decide_eq_true_eq] at hpx
    simp [hs, hown, hstat, not_le.mpr hfut]
    intro hc
    exact absurd hpx.2 (hc x hx hpx.1)

/-- Claim C2 witness: the first stage at a concrete input. -/
theorem c2_witness :
    createApplication exDbActive 0 1 7 exReqShortCover
      = (CreateResult.validationError (serializerErrors exDbActive 0 exReqShortCover),
         exDbActive) :=
  (c2_amended_order exDbActive 0 1 7 exReqShortCover).1 (by decide)

/-- Claim C4, amended: a creation request whose `job` key resolves to a
job posted by the requesting user never succeeds and never mutates the
database; the error is the own-job rejection exactly when the serializer
validation passes, and the serializer ValidationError otherwise. -/
theorem c4_amended (db : DB) (now : Int) (user nextId : Nat) (req : CreateRequest)
    (job : Job)
    (hfind : db.jobs.find? (fun j => some j.id = req.job) = some job)
    (hown : job.posted_by = user) :
    createApplication db now user nextId req
      = ((if serializerErrors db now req = []
          then CreateResult.badRequest "You cannot apply to your own job"
          else CreateResult.validationError (serializerErrors db now req)), db) := by
  by_cases h : serializerErrors db now req = []
  · simp [createApplication, h, hfind, hown]
  · simp [createApplication, h]

/-- Claim C4 witness: the poster of the active job applies to it. -/
theorem c4_witness :
    createApplication exDbActive 0 1 7 exReqOk
      = ((if serializerErrors exDbActive 0 exReqOk = []
          then CreateResult.badRequest "You cannot apply to your own job"
          else CreateResult.validationError (serializerErrors exDbActive 0 exReqOk)),
         exDbActive) :=
  c4_amended exDbActive 0 1 7 exReqOk exJobActive (by decide) (by decide)

/-- Claim C6, amended: withdrawal by the applicant succeeds and sets
status `withdrawn` exactly when the current status is neither `accepted`
nor `rejected` (that is, from the six claimed statuses and also from
`withdrawn`); from `accepted` or `rejected` it fails and the database is
unchanged.  On success only the status column of the row is written. -/
theorem c6_amended (db : DB) (user appId : Nat) (a : JobApplication)
    (hfind : db.apps.find? (fun b => b.id = appId ∧ b.applicant = user) = some a) :
    (a.status ≠ "accepted" ∧ a.status ≠ "rejected" →
      withdrawApplication db user appId
        = (WithdrawResult.success "Application withdrawn successfully",
           { db with apps := db.apps.map fun b =>
               if b.id = a.id then { b with status := "withdrawn" } else b }))
    ∧ (a.status = "accepted" ∨ a.status = "rejected" →
      withdrawApplication db user appId
        = (WithdrawResult.badRequest "Cannot withdraw application with current status", db)) := by
  constructor
  · intro h
    unfold withdrawApplication
    rw [hfind]
    simp [h.1, h.2]
  · intro h
    unfold withdrawApplication
    rw [hfind]
    rcases h with h | h <;> simp [h]

/-- Claim C6 witness: withdrawal of a pending application succeeds. -/
theorem c6_witness :
    withdrawApplication exDbPending 2 1
      = (WithdrawResult.success "Application withdrawn successfully",
         { exDbPending with apps := exDbPending.apps.map fun b =>
             if b.id = 1 then { b with status := "withdrawn" } else b }) :=
  (c6_amended exDbPending 2 1 exAppPending (by decide)).1 (by decide)

/-- Claim C7, amended: a withdrawal request by a user who is not the
applicant of any application with the given id fails with NotFound (the
lookup is scoped to the requesting user; no Forbidden outcome exists in
the code) and the database is unchanged. -/
theorem c7_amended (db : DB) (user appId : Nat)
    (h : ∀ a ∈ db.apps, a.id = appId → a.applicant ≠ user) :
    withdrawApplication db user appId = (WithdrawResult.notFound, db) := by
  have hnone : db.apps.find? (fun a => a.id = appId ∧ a.applicant = user) = none := by
    refine List.find?_eq_none.mpr ?_
    intro a ha
    simp only [decide_eq_true_eq, not_and]
    exact h a ha
  unfold withdrawApplication
  rw [hnone]

/-- Claim C7 witness: user 3 owns no application with id 1. -/
theorem c7_witness :
    withdrawApplication exDbPending 3 1 = (WithdrawResult.notFound, exDbPending) :=
  c7_amended exDbPending 3 1 (by decide)

/-- Claim C8: the reported success rate equals accepted divided by total
times 100 rounded to one decimal place when the total is positive, and 0
when the total is 0; in particular 1 accepted out of 4 yields 25.0 and an
empty dashboard yields 0. -/
theorem c8_success_rate_formula :
    (∀ d : Dashboard, (dashboard_summary d).success_rate
        = specSuccessRate d.accepted_applications d.total_applications)
    ∧ (dashboard_summary exDash4).success_rate = 25
    ∧ (dashboard_summary exDash0).success_rate = 0 := by
  have hzero : pyRound1 0 = 0 := by norm_num [pyRound1, roundHalfEven]
  refine ⟨?_, ?_, ?_⟩
  · intro d
    by_cases h : d.total_applications = 0
    · simp [dashboard_summary, specSuccessRate, h, hzero]
    · simp [dashboard_summary, specSuccessRate, h, Nat.pos_of_ne_zero h]
  · norm_num [dashboard_summary, exDash4, pyRound1, roundHalfEven]
  · simp [dashboard_summary, exDash0, hzero]

/-- Claim C10, amended: on a database with unique application ids, the
applicant-facing update endpoint can change only `cover_letter`,
`portfolio_url` and the auto-maintained `updated_at` of any row: id,
job, applicant, status, notes and applied_at are unchanged for every
row, whatever the request supplies. -/
theorem c10_amended (db : DB) (now : Int) (user appId : Nat)
    (data : List (String × String)) (patch : Bool)
    (hids : (db.apps.map (fun b => b.id)).Nodup) :
    List.Forall₂ updateFrame db.apps (updateApplication db now user appId data patch).2.apps := by
  have hrefl : List.Forall₂ updateFrame db.apps db.apps :=
    List.forall₂_same.mpr (fun b _ => ⟨rfl, rfl, rfl, rfl, rfl, rfl⟩)
  unfold updateApplication
  split
  · exact hrefl
  · next a hfind =>
      have hamem : a ∈ db.apps := List.mem_of_find?_eq_some hfind
      have hmap : ∀ a2 : JobApplication, a2.id = a.id → a2.job = a.job →
          a2.applicant = a.applicant → a2.status = a.status → a2.notes = a.notes →
          a2.applied_at = a.applied_at →
          List.Forall₂ updateFrame db.apps
            (db.apps.map (fun b => if b.id = a.id then a2 else b)) := by
        intro a2 h1 h2 h3 h4 h5 h6
        rw [List.forall₂_map_right_iff]
        refine List.forall₂_same.mpr ?_
        intro b hb
        by_cases hbid : b.id = a.id
        · have hba : b = a := List.inj_on_of_nodup_map hids hb hamem hbid
          subst hba
          simp [updateFrame, hbid, h1, h2, h3, h4, h5, h6]
        · simp [updateFrame, hbid]
      split
      · exact hrefl
      · split
        · exact hrefl
        · exact hmap _ rfl rfl rfl rfl rfl rfl

/-- Claim C10 witness: a concrete patch request on a one-row table. -/
theorem c10_witness :
    List.Forall₂ updateFrame exDbPending.apps
      (updateApplication exDbPending 5 2 1 [("cover_letter", cover60)] true).2.apps :=
  c10_amended exDbPending 5 2 1 [("cover_letter", cover60)] true (by decide)

end Jobsphere
